import Mathlib

/-!
Verification of the configuration module of whisperX-FastAPI
(`app/core/config.py`).

The module has no algorithmic core: it declares pydantic-settings groups
(`DatabaseSettings`, `WhisperSettings`, `LoggingSettings`, aggregated in
`Settings`), one model validator that coerces the compute type to int8 on
CPU, one before-validator normalizing `ENVIRONMENT`, an `lru_cache`d
accessor `get_settings`, and a guarded `import torch` that wraps
NCCL-related failures in a descriptive `ImportError`.

The shallow embedding below models the construction pipeline explicitly:
an environment is a list of key/value string pairs; each settings group is
a structure built by a total function from the environment, returning
`Except ConfigValidationError` because enum and boolean coercions can
fail.  The enums `Device`, `ComputeType` and `WhisperModel` live in
`app/schemas.py`, which is repository code not included here; they are
modelled from the spec.  Library behaviour of pydantic-settings that the
code relies on is embedded as configured: the top-level `Settings` class
sets `case_sensitive=True` and `env_file=".env"` in its `model_config`,
while the nested groups declare no `model_config`, so they use the
pydantic-settings defaults (`case_sensitive=False`, no env file) and read
the live process environment directly when built by their default
factories.
-/

namespace WhisperXConfig

/-- Python's `str.lower()` restricted to the per-character lowering that
Lean's `Char.toLower` performs (identical on ASCII, which is all the
configuration values use). -/
def pyLower (s : String) : String := ⟨s.data.map Char.toLower⟩

/-- Does `hay` start with `needle`?  (Embedding helper for Python's
substring test.) -/
def leadsWith : List Char → List Char → Bool
  | [], _ => true
  | _ :: _, [] => false
  | a :: as, b :: bs => a == b && leadsWith as bs

/-- Does `needle` occur contiguously inside `hay`?  Embedding of Python's
`needle in hay` on strings. -/
def listHasSub (needle hay : List Char) : Bool :=
  match hay with
  | [] => needle.isEmpty
  | _ :: t => leadsWith needle hay || listHasSub needle t

/-- `containsSub hay needle` embeds Python's `needle in hay`. -/
def containsSub (hay needle : String) : Bool := listHasSub needle.data hay.data

/-- An environment variable table (also used for the parsed `.env` file):
an association list of names to values, first binding wins. -/
abbrev Env := List (String × String)

/-- Look a key up in an environment table.  pydantic-settings matches
field names against variable names case-sensitively only when the
settings class sets `case_sensitive=True`; with the default `False` both
sides are compared lowercased. -/
def envLookup (caseSensitive : Bool) (key : String) (env : Env) : Option String :=
  if caseSensitive then
    (env.find? (fun kv => kv.1 == key)).map (fun kv => kv.2)
  else
    (env.find? (fun kv => pyLower kv.1 == pyLower key)).map (fun kv => kv.2)

/-- Modelled from the spec: `Device` enum of `app/schemas.py` (not under
`src/`); the spec fixes the closed set `cpu | cuda`. -/
inductive Device
  | cpu
  | cuda
deriving DecidableEq

/-- Modelled from the spec: `ComputeType` enum of `app/schemas.py` (not
under `src/`); the spec names the 16-bit float and 8-bit integer modes
and allows further precision modes, here represented by `float32`. -/
inductive ComputeType
  | float16
  | float32
  | int8
deriving DecidableEq

/-- Modelled from the spec: `WhisperModel` enum of `app/schemas.py` (not
under `src/`); an enum of supported model sizes with default `tiny`. -/
inductive WhisperModel
  | tiny
  | base
  | small
  | medium
  | large
deriving DecidableEq

/-- pydantic's `ValidationError` as surfaced at settings construction:
the field whose coercion failed and the offending raw value. -/
structure ConfigValidationError where
  fieldName : String
  badValue : String
deriving DecidableEq

/-- Coercion of a raw string into the closed `Device` enum; any value
outside the closed set is a validation error, never a fallback. -/
def parseDevice (v : String) : Except ConfigValidationError Device :=
  if v == "cpu" then Except.ok Device.cpu
  else if v == "cuda" then Except.ok Device.cuda
  else Except.error ⟨"DEVICE", v⟩

/-- Coercion of a raw string into the closed `ComputeType` enum. -/
def parseComputeType (v : String) : Except ConfigValidationError ComputeType :=
  if v == "float16" then Except.ok ComputeType.float16
  else if v == "float32" then Except.ok ComputeType.float32
  else if v == "int8" then Except.ok ComputeType.int8
  else Except.error ⟨"COMPUTE_TYPE", v⟩

/-- Coercion of a raw string into the closed `WhisperModel` enum. -/
def parseWhisperModel (v : String) : Except ConfigValidationError WhisperModel :=
  if v == "tiny" then Except.ok WhisperModel.tiny
  else if v == "base" then Except.ok WhisperModel.base
  else if v == "small" then Except.ok WhisperModel.small
  else if v == "medium" then Except.ok WhisperModel.medium
  else if v == "large" then Except.ok WhisperModel.large
  else Except.error ⟨"WHISPER_MODEL", v⟩

/-- pydantic's boolean coercion from environment strings: the usual
truthy/falsy spellings, case-insensitively; anything else is a
validation error. -/
def parseBool (fieldName v : String) : Except ConfigValidationError Bool :=
  let l := pyLower v
  if l == "true" || l == "1" || l == "yes" || l == "on" || l == "y" || l == "t" then
    Except.ok true
  else if l == "false" || l == "0" || l == "no" || l == "off" || l == "n" || l == "f" then
    Except.ok false
  else Except.error ⟨fieldName, v⟩

/-- Apply a coercion to an optionally-present raw value: an absent
variable is not an error (the field default applies instead). -/
def parseOpt {α : Type} (f : String → Except ConfigValidationError α) :
    Option String → Except ConfigValidationError (Option α)
  | none => Except.ok none
  | some v => (f v).map some

/-- `DatabaseSettings` of `config.py`: `DB_URL` (default
`"sqlite:///records.db"`) and `DB_ECHO` (default `False`). -/
structure DatabaseSettings where
  DB_URL : String
  DB_ECHO : Bool
deriving DecidableEq

/-- Construction of `DatabaseSettings` by its default factory: the class
declares no `model_config`, so it reads the live environment only (no env
file) and matches names case-insensitively (library default). -/
def databaseSettingsFromEnv (envVars : Env) : Except ConfigValidationError DatabaseSettings :=
  match parseOpt (parseBool "DB_ECHO") (envLookup false "DB_ECHO" envVars) with
  | Except.error e => Except.error e
  | Except.ok echo =>
    Except.ok
      { DB_URL := (envLookup false "DB_URL" envVars).getD "sqlite:///records.db"
        DB_ECHO := echo.getD false }

/-- The fixed audio-suffix set of `WhisperSettings.AUDIO_EXTENSIONS`. -/
def audioExtensionsDefault : Finset String :=
  {".mp3", ".wav", ".awb", ".aac", ".ogg", ".oga", ".m4a", ".wma", ".amr"}

/-- The fixed video-suffix set of `WhisperSettings.VIDEO_EXTENSIONS`. -/
def videoExtensionsDefault : Finset String :=
  {".mp4", ".mov", ".avi", ".wmv", ".mkv"}

/-- `WhisperSettings` of `config.py`.  `ALLOWED_EXTENSIONS` is a computed
property, not a stored field, so it appears below as a function on the
structure rather than a field of it. -/
structure WhisperSettings where
  HF_TOKEN : Option String
  WHISPER_MODEL : WhisperModel
  DEFAULT_LANG : String
  DEVICE : Device
  COMPUTE_TYPE : ComputeType
  AUDIO_EXTENSIONS : Finset String
  VIDEO_EXTENSIONS : Finset String
deriving DecidableEq

/-- The `@computed_field` property `ALLOWED_EXTENSIONS`: recomputed from
the two stored sets on every access, never stored. -/
def WhisperSettings.ALLOWED_EXTENSIONS (s : WhisperSettings) : Finset String :=
  s.AUDIO_EXTENSIONS ∪ s.VIDEO_EXTENSIONS

/-- The `@model_validator(mode="after")` of `WhisperSettings`: if the
device is CPU and the compute type is not int8, the compute type is
overwritten with int8; no error is ever raised. -/
def validate_compute_type_for_cpu (s : WhisperSettings) : WhisperSettings :=
  if s.DEVICE = Device.cpu ∧ s.COMPUTE_TYPE ≠ ComputeType.int8 then
    { s with COMPUTE_TYPE := ComputeType.int8 }
  else s

/-- Field population of `WhisperSettings` before the model validator
runs: each field takes its explicitly supplied value when present and its
declared default otherwise.  `gpuAvailable` is the result of the
`torch.cuda.is_available()` probe evaluated once by the two
`default_factory` lambdas. -/
def populateWhisperSettings (gpuAvailable : Bool) (hf : Option String)
    (model : Option WhisperModel) (lang : Option String)
    (device : Option Device) (ct : Option ComputeType) : WhisperSettings :=
  { HF_TOKEN := hf
    WHISPER_MODEL := model.getD WhisperModel.tiny
    DEFAULT_LANG := lang.getD "en"
    DEVICE := device.getD (if gpuAvailable then Device.cuda else Device.cpu)
    COMPUTE_TYPE := ct.getD (if gpuAvailable then ComputeType.float16 else ComputeType.int8)
    AUDIO_EXTENSIONS := audioExtensionsDefault
    VIDEO_EXTENSIONS := videoExtensionsDefault }

/-- Full construction of a `WhisperSettings` value from already-coerced
inputs: population followed by the model validator. -/
def mkWhisperSettings (gpuAvailable : Bool) (hf : Option String)
    (model : Option WhisperModel) (lang : Option String)
    (device : Option Device) (ct : Option ComputeType) : WhisperSettings :=
  validate_compute_type_for_cpu
    (populateWhisperSettings gpuAvailable hf model lang device ct)

/-- Construction of `WhisperSettings` by its default factory from the
live environment (no `model_config`, hence case-insensitive matching and
no env file), coercing the enum-typed fields and failing on any value
outside its closed set. -/
def whisperSettingsFromEnv (gpuAvailable : Bool) (envVars : Env) :
    Except ConfigValidationError WhisperSettings :=
  match parseOpt parseWhisperModel (envLookup false "WHISPER_MODEL" envVars) with
  | Except.error e => Except.error e
  | Except.ok model =>
    match parseOpt parseDevice (envLookup false "DEVICE" envVars) with
    | Except.error e => Except.error e
    | Except.ok device =>
      match parseOpt parseComputeType (envLookup false "COMPUTE_TYPE" envVars) with
      | Except.error e => Except.error e
      | Except.ok ct =>
        Except.ok (mkWhisperSettings gpuAvailable
          (envLookup false "HF_TOKEN" envVars) model
          (envLookup false "DEFAULT_LANG" envVars) device ct)

/-- `LoggingSettings` of `config.py`. -/
structure LoggingSettings where
  LOG_LEVEL : String
  LOG_FORMAT : String
  FILTER_WARNING : Bool
deriving DecidableEq

/-- Construction of `LoggingSettings` by its default factory (no
`model_config`: case-insensitive matching, live environment only). -/
def loggingSettingsFromEnv (envVars : Env) : Except ConfigValidationError LoggingSettings :=
  match parseOpt (parseBool "FILTER_WARNING") (envLookup false "FILTER_WARNING" envVars) with
  | Except.error e => Except.error e
  | Except.ok fw =>
    Except.ok
      { LOG_LEVEL := (envLookup false "LOG_LEVEL" envVars).getD "INFO"
        LOG_FORMAT := (envLookup false "LOG_FORMAT" envVars).getD "text"
        FILTER_WARNING := fw.getD true }

/-- The `@field_validator("ENVIRONMENT", mode="before")` of `Settings`:
`str(v).lower() if v else "production"` — a falsy (empty) string falls
back to `"production"`, everything else is lowercased. -/
def normalize_environment (v : String) : String :=
  if v = "" then "production" else pyLower v

/-- The aggregate `Settings` of `config.py`. -/
structure Settings where
  ENVIRONMENT : String
  DEV : Bool
  database : DatabaseSettings
  whisper : WhisperSettings
  logging : LoggingSettings
deriving DecidableEq

/-- Value resolution for the top-level `Settings` fields: its
`model_config` sets `case_sensitive=True` and `env_file=".env"`, so a
name is matched exactly, first against the live environment and, when
absent there, against the env file — live variables win on conflict. -/
def resolveTop (key : String) (envVars envFile : Env) : Option String :=
  (envLookup true key envVars).orElse (fun _ => envLookup true key envFile)

/-- Construction of `Settings`: its own two fields come from its sources
(live environment over env file, case-sensitively); the three nested
groups are built by their default factories, each reading the live
environment under its own (default) configuration.  Nested-delimiter
addressing (`database__DB_URL`-style keys) is not exercised by any claim
and is not modelled: keys of that shape are simply never consulted. -/
def settingsFromEnv (gpuAvailable : Bool) (envVars envFile : Env) :
    Except ConfigValidationError Settings :=
  match parseOpt (parseBool "DEV") (resolveTop "DEV" envVars envFile) with
  | Except.error e => Except.error e
  | Except.ok dev =>
    match databaseSettingsFromEnv envVars with
    | Except.error e => Except.error e
    | Except.ok db =>
      match whisperSettingsFromEnv gpuAvailable envVars with
      | Except.error e => Except.error e
      | Except.ok w =>
        match loggingSettingsFromEnv envVars with
        | Except.error e => Except.error e
        | Except.ok lg =>
          Except.ok
            { ENVIRONMENT :=
                match resolveTop "ENVIRONMENT" envVars envFile with
                | some v => normalize_environment v
                | none => "production"
              DEV := dev.getD false
              database := db
              whisper := w
              logging := lg }

/-- The `@lru_cache`-decorated `get_settings`: the cache state is the
optional stored instance; the result triple is the returned instance, the
new cache state, and whether the constructor ran on this call.  A cache
hit returns the stored instance itself without reconstructing. -/
def get_settings (ctor : Unit → Settings) (cache : Option Settings) :
    Settings × Option Settings × Bool :=
  match cache with
  | some s => (s, some s, false)
  | none =>
    let s := ctor ()
    (s, some s, true)

/-- Outcome of the raw `import torch` statement: success, or a caught
`ImportError`/`OSError`/`RuntimeError` carrying `str(e)`. -/
inductive TorchImportOutcome
  | ok
  | failed (msg : String)
deriving DecidableEq

/-- Result of the guarded import block: success, the original exception
re-raised unchanged (`raise`), or the new descriptive `ImportError`
chained to the original (`raise ImportError(...) from e`), recording the
new message and the original message as the cause. -/
inductive TorchImportResult
  | ok
  | originalError (msg : String)
  | wrappedImportError (message : String) (cause : String)
deriving DecidableEq

/-- The descriptive message of the wrapped `ImportError`, assembled
exactly as the f-string at lines 46-53 of `config.py`; `lp` and `llp` are
the already-defaulted values of `LD_PRELOAD` and `LD_LIBRARY_PATH`. -/
def ncclErrorMessage (errorMsg lp llp : String) : String :=
  "PyTorch import failed due to NCCL compatibility issue: " ++ errorMsg ++
  "\nThis usually indicates that PyTorch 2.8+ requires NCCL 2.18+ with the \x27ncclGroupSimulateEnd\x27 symbol.\nDiagnostic information:\n  LD_PRELOAD: " ++ lp ++
  "\n  LD_LIBRARY_PATH: " ++ llp ++
  "\n  Python attempted to set LD_PRELOAD but it may be too late.\nPlease ensure the startup script correctly sets LD_PRELOAD to a compatible NCCL library."

/-- The `try: import torch / except ...` guard of `config.py`:
`ldPreload` and `ldLibraryPath` are the values of the two environment
variables at failure time (`os.environ.get`, defaulting to `"not set"`).
A failure whose message holds either marker substring is wrapped in the
descriptive `ImportError` chained to the original; any other failure is
re-raised unchanged. -/
def torch_import_guard (ldPreload ldLibraryPath : Option String)
    (outcome : TorchImportOutcome) : TorchImportResult :=
  match outcome with
  | TorchImportOutcome.ok => TorchImportResult.ok
  | TorchImportOutcome.failed msg =>
    if containsSub msg "ncclGroupSimulateEnd" || containsSub msg "undefined symbol" then
      TorchImportResult.wrappedImportError
        (ncclErrorMessage msg (ldPreload.getD "not set") (ldLibraryPath.getD "not set"))
        msg
    else TorchImportResult.originalError msg

lemma leadsWith_append (n t : List Char) : leadsWith n (n ++ t) = true := by
  induction n with
  | nil => simp [leadsWith]
  | cons a as ih => simp [leadsWith, ih]

lemma listHasSub_nil_needle (hay : List Char) : listHasSub [] hay = true := by
  cases hay with
  | nil => simp [listHasSub]
  | cons a t => simp [listHasSub, leadsWith]

lemma listHasSub_of_append (n pre post : List Char) :
    listHasSub n (pre ++ (n ++ post)) = true := by
  induction pre with
  | nil =>
    cases n with
    | nil => simp [listHasSub_nil_needle]
    | cons a as =>
      simp only [List.nil_append, List.cons_append, listHasSub, Bool.or_eq_true]
      exact Or.inl (by rw [← List.cons_append]; exact leadsWith_append (a :: as) post)
  | cons b bs ih =>
    simp [listHasSub, ih]

lemma listHasSub_eq_parts (n pre post hay : List Char)
    (hhay : hay = pre ++ (n ++ post)) : listHasSub n hay = true := by
  subst hhay
  exact listHasSub_of_append n pre post

lemma containsSub_eq_parts (needle pre post hay : String)
    (hhay : hay = pre ++ (needle ++ post)) : containsSub hay needle = true := by
  subst hhay
  show listHasSub needle.data (pre ++ (needle ++ post)).data = true
  rw [String.data_append, String.data_append]
  exact listHasSub_of_append needle.data pre.data post.data

lemma containsSub_ncclErrorMessage_lp (errorMsg lp llp : String) :
    containsSub (ncclErrorMessage errorMsg lp llp) lp = true := by
  apply containsSub_eq_parts lp
    ("PyTorch import failed due to NCCL compatibility issue: " ++ errorMsg ++
      "\nThis usually indicates that PyTorch 2.8+ requires NCCL 2.18+ with the \x27ncclGroupSimulateEnd\x27 symbol.\nDiagnostic information:\n  LD_PRELOAD: ")
    ("\n  LD_LIBRARY_PATH: " ++ llp ++
      "\n  Python attempted to set LD_PRELOAD but it may be too late.\nPlease ensure the startup script correctly sets LD_PRELOAD to a compatible NCCL library.")
  simp only [ncclErrorMessage, String.append_assoc]

lemma containsSub_ncclErrorMessage_llp (errorMsg lp llp : String) :
    containsSub (ncclErrorMessage errorMsg lp llp) llp = true := by
  apply containsSub_eq_parts llp
    ("PyTorch import failed due to NCCL compatibility issue: " ++ errorMsg ++
      "\nThis usually indicates that PyTorch 2.8+ requires NCCL 2.18+ with the \x27ncclGroupSimulateEnd\x27 symbol.\nDiagnostic information:\n  LD_PRELOAD: " ++ lp ++
      "\n  LD_LIBRARY_PATH: ")
    ("\n  Python attempted to set LD_PRELOAD but it may be too late.\nPlease ensure the startup script correctly sets LD_PRELOAD to a compatible NCCL library.")
  simp only [ncclErrorMessage, String.append_assoc]

/-- Did a fallible construction produce an instance?  `false` means the
validation error escaped and no (partial) instance was exposed. -/
def exceptIsOk {ε α : Type} : Except ε α → Bool
  | Except.ok _ => true
  | Except.error _ => false

lemma whisper_ok_shape (gpu : Bool) (envVars : Env) (w : WhisperSettings)
    (h : whisperSettingsFromEnv gpu envVars = Except.ok w) :
    ∃ model device ct,
      parseOpt parseWhisperModel (envLookup false "WHISPER_MODEL" envVars) = Except.ok model ∧
      parseOpt parseDevice (envLookup false "DEVICE" envVars) = Except.ok device ∧
      parseOpt parseComputeType (envLookup false "COMPUTE_TYPE" envVars) = Except.ok ct ∧
      w = mkWhisperSettings gpu (envLookup false "HF_TOKEN" envVars) model
            (envLookup false "DEFAULT_LANG" envVars) device ct := by
  unfold whisperSettingsFromEnv at h
  split at h
  · exact absurd h (by simp)
  · rename_i model hm
    split at h
    · exact absurd h (by simp)
    · rename_i device hd
      split at h
      · exact absurd h (by simp)
      · rename_i ct hc
        simp only [Except.ok.injEq] at h
        exact ⟨model, device, ct, hm, hd, hc, h.symm⟩

lemma settings_ok_fields (gpu : Bool) (envVars envFile : Env) (s : Settings)
    (h : settingsFromEnv gpu envVars envFile = Except.ok s) :
    (s.ENVIRONMENT = match resolveTop "ENVIRONMENT" envVars envFile with
      | some v => normalize_environment v
      | none => "production") ∧
    databaseSettingsFromEnv envVars = Except.ok s.database ∧
    whisperSettingsFromEnv gpu envVars = Except.ok s.whisper ∧
    loggingSettingsFromEnv envVars = Except.ok s.logging := by
  unfold settingsFromEnv at h
  split at h
  · exact absurd h (by simp)
  · rename_i dev hdev
    split at h
    · exact absurd h (by simp)
    · rename_i db hdb
      split at h
      · exact absurd h (by simp)
      · rename_i w hw
        split at h
        · exact absurd h (by simp)
        · rename_i lg hlg
          simp only [Except.ok.injEq] at h
          subst h
          exact ⟨rfl, hdb, hw, hlg⟩

lemma database_ok_shape (envVars : Env) (db : DatabaseSettings)
    (h : databaseSettingsFromEnv envVars = Except.ok db) :
    db.DB_URL = (envLookup false "DB_URL" envVars).getD "sqlite:///records.db" := by
  unfold databaseSettingsFromEnv at h
  split at h
  · exact absurd h (by simp)
  · rename_i echo hecho
    simp only [Except.ok.injEq] at h
    subst h
    rfl

lemma whisper_not_ok_of_bad_device (gpu : Bool) (envVars : Env) (v : String)
    (hdev : envLookup false "DEVICE" envVars = some v)
    (h1 : v ≠ "cpu") (h2 : v ≠ "cuda") :
    ∀ w, whisperSettingsFromEnv gpu envVars ≠ Except.ok w := by
  intro w hw
  obtain ⟨model, device, ct, _, hd, _, _⟩ := whisper_ok_shape gpu envVars w hw
  rw [hdev] at hd
  have hd2 : Except.map some (parseDevice v) = Except.ok device := hd
  unfold parseDevice at hd2
  rw [if_neg (by simp [h1]), if_neg (by simp [h2])] at hd2
  simp [Except.map] at hd2

lemma settings_not_ok_of_whisper (gpu : Bool) (envVars envFile : Env)
    (h : ∀ w, whisperSettingsFromEnv gpu envVars ≠ Except.ok w) :
    exceptIsOk (settingsFromEnv gpu envVars envFile) = false := by
  cases hres : settingsFromEnv gpu envVars envFile with
  | error e => rfl
  | ok s => exact absurd (settings_ok_fields gpu envVars envFile s hres).2.2.1 (h s.whisper)

/-- C1: for every construction of `WhisperSettings` whose resulting
device is `cpu`, the resulting compute type is `int8`, regardless of any
explicitly supplied compute type; the model validator corrects the
mismatch by mutation after field population and never raises. -/
theorem c1_cpu_device_forces_int8 (gpuAvailable : Bool) (hf : Option String)
    (model : Option WhisperModel) (lang : Option String)
    (device : Option Device) (ct : Option ComputeType)
    (h : (mkWhisperSettings gpuAvailable hf model lang device ct).DEVICE = Device.cpu) :
    (mkWhisperSettings gpuAvailable hf model lang device ct).COMPUTE_TYPE = ComputeType.int8 := by
  unfold mkWhisperSettings validate_compute_type_for_cpu at h ⊢
  by_cases hc :
      (populateWhisperSettings gpuAvailable hf model lang device ct).DEVICE = Device.cpu ∧
      (populateWhisperSettings gpuAvailable hf model lang device ct).COMPUTE_TYPE ≠ ComputeType.int8
  · rw [if_pos hc]
  · rw [if_neg hc] at h ⊢
    push_neg at hc
    exact hc h

/-- Witness for C1: on a machine without GPU, an explicitly requested
`float16` on the defaulted `cpu` device is silently coerced to `int8`. -/
theorem c1_witness :
    (mkWhisperSettings false none none none none (some ComputeType.float16)).COMPUTE_TYPE =
      ComputeType.int8 :=
  c1_cpu_device_forces_int8 false none none none none (some ComputeType.float16) rfl

/-- C2: for every `WhisperSettings` produced by construction,
`ALLOWED_EXTENSIONS` equals the union of `AUDIO_EXTENSIONS` and
`VIDEO_EXTENSIONS`; being a computed property (a function, not a stored
field, in this embedding), it is recomputed from the two sets on every
access and is never independently assigned. -/
theorem c2_allowed_extensions_is_union (gpuAvailable : Bool) (envVars : Env)
    (s : WhisperSettings)
    (h : whisperSettingsFromEnv gpuAvailable envVars = Except.ok s) :
    s.ALLOWED_EXTENSIONS = s.AUDIO_EXTENSIONS ∪ s.VIDEO_EXTENSIONS := rfl

/-- Witness for C2: the default CPU construction from an empty
environment satisfies the union equation. -/
theorem c2_witness :
    (mkWhisperSettings false none none none none none).ALLOWED_EXTENSIONS =
      (mkWhisperSettings false none none none none none).AUDIO_EXTENSIONS ∪
        (mkWhisperSettings false none none none none none).VIDEO_EXTENSIONS :=
  c2_allowed_extensions_is_union false [] (mkWhisperSettings false none none none none none) rfl

/-- C3: with no explicit `DEVICE`, the device field is `cuda` exactly
when the GPU probe reported an accelerator at construction time, else
`cpu`; with no explicit `COMPUTE_TYPE` either, the compute type resolves
to `float16` with a GPU and `int8` without. -/
theorem c3_dynamic_defaults (gpuAvailable : Bool) (envVars : Env) (s : WhisperSettings)
    (hdev : envLookup false "DEVICE" envVars = none)
    (hct : envLookup false "COMPUTE_TYPE" envVars = none)
    (h : whisperSettingsFromEnv gpuAvailable envVars = Except.ok s) :
    (s.DEVICE = Device.cuda ↔ gpuAvailable = true) ∧
    s.COMPUTE_TYPE = (if gpuAvailable then ComputeType.float16 else ComputeType.int8) := by
  obtain ⟨model, device, ct, _, hd, hc, hweq⟩ := whisper_ok_shape gpuAvailable envVars s h
  rw [hdev] at hd
  rw [hct] at hc
  have hd2 : (Except.ok (none : Option Device) :
      Except ConfigValidationError (Option Device)) = Except.ok device := hd
  have hc2 : (Except.ok (none : Option ComputeType) :
      Except ConfigValidationError (Option ComputeType)) = Except.ok ct := hc
  simp only [Except.ok.injEq] at hd2 hc2
  subst hweq
  rw [← hd2, ← hc2]
  cases gpuAvailable with
  | true =>
    simp [mkWhisperSettings, populateWhisperSettings, validate_compute_type_for_cpu]
  | false =>
    simp [mkWhisperSettings, populateWhisperSettings, validate_compute_type_for_cpu]

/-- Witness for C3: with a GPU and an empty environment the defaults
resolve to `cuda` and `float16`. -/
theorem c3_witness :
    ((mkWhisperSettings true none none none none none).DEVICE = Device.cuda ↔ true = true) ∧
    (mkWhisperSettings true none none none none none).COMPUTE_TYPE =
      (if true then ComputeType.float16 else ComputeType.int8) :=
  c3_dynamic_defaults true [] (mkWhisperSettings true none none none none none) rfl rfl rfl

/-- C4: `get_settings` constructs the instance lazily on the first call
(the constructor runs, the instance is cached) and every subsequent call
returns the very instance held in the cache without running the
constructor again, leaving the cache unchanged. -/
theorem c4_get_settings_singleton (ctor : Unit → Settings) :
    (get_settings ctor none).2.2 = true ∧
    (get_settings ctor none).1 = ctor () ∧
    (get_settings ctor ((get_settings ctor none).2.1)).1 = (get_settings ctor none).1 ∧
    (get_settings ctor ((get_settings ctor none).2.1)).2.2 = false ∧
    (get_settings ctor ((get_settings ctor none).2.1)).2.1 = (get_settings ctor none).2.1 :=
  ⟨rfl, rfl, rfl, rfl, rfl⟩

lemma whisper_not_ok_of_bad_compute_type (gpu : Bool) (envVars : Env) (v : String)
    (hct : envLookup false "COMPUTE_TYPE" envVars = some v)
    (h1 : v ≠ "float16") (h2 : v ≠ "float32") (h3 : v ≠ "int8") :
    ∀ w, whisperSettingsFromEnv gpu envVars ≠ Except.ok w := by
  intro w hw
  obtain ⟨model, device, ct, _, _, hc, _⟩ := whisper_ok_shape gpu envVars w hw
  rw [hct] at hc
  have hc2 : Except.map some (parseComputeType v) = Except.ok ct := hc
  unfold parseComputeType at hc2
  rw [if_neg (by simp [h1]), if_neg (by simp [h2]), if_neg (by simp [h3])] at hc2
  simp [Except.map] at hc2

lemma whisper_not_ok_of_bad_model (gpu : Bool) (envVars : Env) (v : String)
    (hm : envLookup false "WHISPER_MODEL" envVars = some v)
    (h1 : v ≠ "tiny") (h2 : v ≠ "base") (h3 : v ≠ "small")
    (h4 : v ≠ "medium") (h5 : v ≠ "large") :
    ∀ w, whisperSettingsFromEnv gpu envVars ≠ Except.ok w := by
  intro w hw
  obtain ⟨model, device, ct, hmo, _, _, _⟩ := whisper_ok_shape gpu envVars w hw
  rw [hm] at hmo
  have hm2 : Except.map some (parseWhisperModel v) = Except.ok model := hmo
  unfold parseWhisperModel at hm2
  rw [if_neg (by simp [h1]), if_neg (by simp [h2]), if_neg (by simp [h3]),
    if_neg (by simp [h4]), if_neg (by simp [h5])] at hm2
  simp [Except.map] at hm2

/-- C5: for each of the three enum-typed fields, an environment value
outside the field's closed set of recognized spellings makes the whole
`Settings` construction fail with a validation error: no silent fallback,
and no (partially-constructed) instance is exposed to callers. -/
theorem c5_unrecognized_enum_rejected (gpuAvailable : Bool) (envVars envFile : Env) :
    (∀ v, envLookup false "DEVICE" envVars = some v → v ≠ "cpu" → v ≠ "cuda" →
      exceptIsOk (settingsFromEnv gpuAvailable envVars envFile) = false) ∧
    (∀ v, envLookup false "COMPUTE_TYPE" envVars = some v →
      v ≠ "float16" → v ≠ "float32" → v ≠ "int8" →
      exceptIsOk (settingsFromEnv gpuAvailable envVars envFile) = false) ∧
    (∀ v, envLookup false "WHISPER_MODEL" envVars = some v →
      v ≠ "tiny" → v ≠ "base" → v ≠ "small" → v ≠ "medium" → v ≠ "large" →
      exceptIsOk (settingsFromEnv gpuAvailable envVars envFile) = false) := by
  refine ⟨fun v hv h1 h2 => ?_, fun v hv h1 h2 h3 => ?_, fun v hv h1 h2 h3 h4 h5 => ?_⟩
  · exact settings_not_ok_of_whisper gpuAvailable envVars envFile
      (whisper_not_ok_of_bad_device gpuAvailable envVars v hv h1 h2)
  · exact settings_not_ok_of_whisper gpuAvailable envVars envFile
      (whisper_not_ok_of_bad_compute_type gpuAvailable envVars v hv h1 h2 h3)
  · exact settings_not_ok_of_whisper gpuAvailable envVars envFile
      (whisper_not_ok_of_bad_model gpuAvailable envVars v hv h1 h2 h3 h4 h5)

/-- Witness for C5: `DEVICE=bogus` makes construction fail; no instance
is produced. -/
theorem c5_witness :
    exceptIsOk (settingsFromEnv false [("DEVICE", "bogus")] []) = false :=
  (c5_unrecognized_enum_rejected false [("DEVICE", "bogus")] []).1 "bogus" rfl
    (by decide) (by decide)

/-- C6: the stored `ENVIRONMENT` is the lowercase form of any supplied
non-empty value, and `"production"` when the variable is absent. -/
theorem c6_environment_lowercased (gpuAvailable : Bool) (envVars envFile : Env) (s : Settings)
    (h : settingsFromEnv gpuAvailable envVars envFile = Except.ok s) :
    (∀ v, resolveTop "ENVIRONMENT" envVars envFile = some v → v ≠ "" →
      s.ENVIRONMENT = pyLower v) ∧
    (resolveTop "ENVIRONMENT" envVars envFile = none → s.ENVIRONMENT = "production") := by
  have henv := (settings_ok_fields gpuAvailable envVars envFile s h).1
  constructor
  · intro v hv hne
    rw [hv] at henv
    have henv2 : s.ENVIRONMENT = normalize_environment v := henv
    rw [henv2]
    unfold normalize_environment
    rw [if_neg hne]
  · intro hnone
    rw [hnone] at henv
    exact henv

/-- Witness for C6: the input `"Production"` is stored as its lowercase
form `"production"`. -/
theorem c6_witness :
    ({ ENVIRONMENT := "production", DEV := false,
       database := { DB_URL := "sqlite:///records.db", DB_ECHO := false },
       whisper := mkWhisperSettings false none none none none none,
       logging := { LOG_LEVEL := "INFO", LOG_FORMAT := "text", FILTER_WARNING := true } } :
        Settings).ENVIRONMENT = pyLower "Production" :=
  (c6_environment_lowercased false [("ENVIRONMENT", "Production")] [] _ rfl).1
    "Production" rfl (by decide)

/-- C7: when `DB_URL` is present both in the env file and as a live
environment variable, the constructed settings hold the live variable's
value — in the code the nested `DatabaseSettings` class reads the live
environment directly (its own configuration names no env file), so on
every conflict the live variable wins. -/
theorem c7_live_env_wins_over_file (gpuAvailable : Bool) (envVars envFile : Env)
    (fileVal liveVal : String) (s : Settings)
    (hfile : envLookup true "DB_URL" envFile = some fileVal)
    (hlive : envLookup false "DB_URL" envVars = some liveVal)
    (h : settingsFromEnv gpuAvailable envVars envFile = Except.ok s) :
    s.database.DB_URL = liveVal := by
  have hdb := (settings_ok_fields gpuAvailable envVars envFile s h).2.1
  have hurl := database_ok_shape envVars s.database hdb
  rw [hlive] at hurl
  simpa using hurl

/-- Witness for C7: with `DB_URL=file:///tmp/x.db` in the env file and
`DB_URL=file:///tmp/y.db` live, the live value is stored. -/
theorem c7_witness :
    ({ ENVIRONMENT := "production", DEV := false,
       database := { DB_URL := "file:///tmp/y.db", DB_ECHO := false },
       whisper := mkWhisperSettings false none none none none none,
       logging := { LOG_LEVEL := "INFO", LOG_FORMAT := "text", FILTER_WARNING := true } } :
        Settings).database.DB_URL = "file:///tmp/y.db" :=
  c7_live_env_wins_over_file false [("DB_URL", "file:///tmp/y.db")]
    [("DB_URL", "file:///tmp/x.db")] "file:///tmp/x.db" "file:///tmp/y.db" _ rfl rfl rfl

/-- C8: a torch import failure whose message holds either marker
substring is wrapped in the descriptive `ImportError` chained to the
original exception, and the wrapped message embeds the current values of
both `LD_PRELOAD` and `LD_LIBRARY_PATH`; a failure with neither marker is
re-raised unchanged. -/
theorem c8_nccl_import_guard (ldPreload ldLibraryPath : Option String) (msg : String) :
    ((containsSub msg "ncclGroupSimulateEnd" || containsSub msg "undefined symbol") = true →
      torch_import_guard ldPreload ldLibraryPath (TorchImportOutcome.failed msg) =
        TorchImportResult.wrappedImportError
          (ncclErrorMessage msg (ldPreload.getD "not set") (ldLibraryPath.getD "not set"))
          msg ∧
      containsSub (ncclErrorMessage msg (ldPreload.getD "not set") (ldLibraryPath.getD "not set"))
        (ldPreload.getD "not set") = true ∧
      containsSub (ncclErrorMessage msg (ldPreload.getD "not set") (ldLibraryPath.getD "not set"))
        (ldLibraryPath.getD "not set") = true) ∧
    ((containsSub msg "ncclGroupSimulateEnd" || containsSub msg "undefined symbol") = false →
      torch_import_guard ldPreload ldLibraryPath (TorchImportOutcome.failed msg) =
        TorchImportResult.originalError msg) := by
  constructor
  · intro hmark
    refine ⟨?_,
      containsSub_ncclErrorMessage_lp msg (ldPreload.getD "not set") (ldLibraryPath.getD "not set"),
      containsSub_ncclErrorMessage_llp msg (ldPreload.getD "not set") (ldLibraryPath.getD "not set")⟩
    have hred : torch_import_guard ldPreload ldLibraryPath (TorchImportOutcome.failed msg) =
        if (containsSub msg "ncclGroupSimulateEnd" || containsSub msg "undefined symbol") = true then
          TorchImportResult.wrappedImportError
            (ncclErrorMessage msg (ldPreload.getD "not set") (ldLibraryPath.getD "not set")) msg
        else TorchImportResult.originalError msg := rfl
    rw [hred, if_pos hmark]
  · intro hmark
    have hred : torch_import_guard ldPreload ldLibraryPath (TorchImportOutcome.failed msg) =
        if (containsSub msg "ncclGroupSimulateEnd" || containsSub msg "undefined symbol") = true then
          TorchImportResult.wrappedImportError
            (ncclErrorMessage msg (ldPreload.getD "not set") (ldLibraryPath.getD "not set")) msg
        else TorchImportResult.originalError msg := rfl
    rw [hred, if_neg (by simp [hmark])]

/-- Witness for C8: a message carrying both markers, with neither
environment variable set, yields the wrapped descriptive error chained to
the original message. -/
theorem c8_witness :
    torch_import_guard none none
        (TorchImportOutcome.failed "undefined symbol: ncclGroupSimulateEnd") =
      TorchImportResult.wrappedImportError
        (ncclErrorMessage "undefined symbol: ncclGroupSimulateEnd" "not set" "not set")
        "undefined symbol: ncclGroupSimulateEnd" :=
  ((c8_nccl_import_guard none none "undefined symbol: ncclGroupSimulateEnd").1 (by decide)).1

/-- Counterexample to C9 as stated: the nested `DatabaseSettings` group
declares no `model_config`, so the pydantic-settings default
(`case_sensitive=False`) applies to it, and the variable name `db_url` —
which differs from the field name `DB_URL` only in letter case — does
populate the field when the group is built by its default factory. -/
theorem c9_counterexample :
    databaseSettingsFromEnv [("db_url", "postgres://from-lowercase-key")] =
      Except.ok { DB_URL := "postgres://from-lowercase-key", DB_ECHO := false } ∧
    ("db_url" : String) ≠ "DB_URL" ∧
    pyLower "db_url" = pyLower "DB_URL" ∧
    ("postgres://from-lowercase-key" : String) ≠ "sqlite:///records.db" :=
  ⟨rfl, by decide, by decide, by decide⟩

lemma envLookup_caseSensitive_none (key : String) (env : Env)
    (h : ∀ kv ∈ env, kv.1 ≠ key) : envLookup true key env = none := by
  unfold envLookup
  rw [if_pos rfl]
  rw [List.find?_eq_none.2]
  · rfl
  · intro kv hkv
    simp [h kv hkv]

/-- C9 as amended: matching is case-sensitive only for the fields of the
top-level `Settings` class, whose `model_config` sets
`case_sensitive=True` — a variable named `environment` does not populate
`ENVIRONMENT`; the nested groups declare no `model_config`, so their
fields are matched case-insensitively, and `DB_URL` takes the value of
whichever variable matches its name up to case. -/
theorem c9_amended_case_sensitivity (gpuAvailable : Bool) (envVars envFile : Env) (s : Settings)
    (henvV : ∀ kv ∈ envVars, kv.1 ≠ "ENVIRONMENT")
    (henvF : ∀ kv ∈ envFile, kv.1 ≠ "ENVIRONMENT")
    (h : settingsFromEnv gpuAvailable envVars envFile = Except.ok s) :
    s.ENVIRONMENT = "production" ∧
    s.database.DB_URL = (envLookup false "DB_URL" envVars).getD "sqlite:///records.db" := by
  have henv := (settings_ok_fields gpuAvailable envVars envFile s h).1
  have hnone : resolveTop "ENVIRONMENT" envVars envFile = none := by
    unfold resolveTop
    rw [envLookup_caseSensitive_none "ENVIRONMENT" envVars henvV,
      envLookup_caseSensitive_none "ENVIRONMENT" envFile henvF]
    rfl
  rw [hnone] at henv
  exact ⟨henv,
    database_ok_shape envVars s.database
      (settings_ok_fields gpuAvailable envVars envFile s h).2.1⟩

/-- Witness for C9 (amended): a lowercase `environment` variable leaves
`ENVIRONMENT` at its default, while a lowercase `db_url` variable does
populate the nested `DB_URL` field. -/
theorem c9_witness :
    ({ ENVIRONMENT := "production", DEV := false,
       database := { DB_URL := "postgres://w", DB_ECHO := false },
       whisper := mkWhisperSettings false none none none none none,
       logging := { LOG_LEVEL := "INFO", LOG_FORMAT := "text", FILTER_WARNING := true } } :
        Settings).ENVIRONMENT = "production" ∧
    ({ ENVIRONMENT := "production", DEV := false,
       database := { DB_URL := "postgres://w", DB_ECHO := false },
       whisper := mkWhisperSettings false none none none none none,
       logging := { LOG_LEVEL := "INFO", LOG_FORMAT := "text", FILTER_WARNING := true } } :
        Settings).database.DB_URL =
      (envLookup false "DB_URL"
        [("environment", "Staging"), ("db_url", "postgres://w")]).getD "sqlite:///records.db" :=
  c9_amended_case_sensitivity false [("environment", "Staging"), ("db_url", "postgres://w")] [] _
    (by decide) (by decide) rfl

/-- C10: a supplied but empty (falsy) `ENVIRONMENT` value is stored as
`"production"`, not as the empty string — the fallback in the
before-validator applies to any falsy value, not only to an absent
variable. -/
theorem c10_empty_environment_production (gpuAvailable : Bool) (envVars envFile : Env)
    (s : Settings)
    (hres : resolveTop "ENVIRONMENT" envVars envFile = some "")
    (h : settingsFromEnv gpuAvailable envVars envFile = Except.ok s) :
    s.ENVIRONMENT = "production" := by
  have henv := (settings_ok_fields gpuAvailable envVars envFile s h).1
  rw [hres] at henv
  have henv2 : s.ENVIRONMENT = normalize_environment "" := henv
  rw [henv2]
  rfl

/-- Witness for C10: `ENVIRONMENT=""` yields the stored value
`"production"`. -/
theorem c10_witness :
    ({ ENVIRONMENT := "production", DEV := false,
       database := { DB_URL := "sqlite:///records.db", DB_ECHO := false },
       whisper := mkWhisperSettings false none none none none none,
       logging := { LOG_LEVEL := "INFO", LOG_FORMAT := "text", FILTER_WARNING := true } } :
        Settings).ENVIRONMENT = "production" :=
  c10_empty_environment_production false [("ENVIRONMENT", "")] [] _ rfl rfl

end WhisperXConfig
